import Mathlib

/-!
Shallow embedding of the kstate shared-memory state library (src/kstate.c).

The authoritative source is the snapshot of kstate.c that defines
`struct kstate_state` with an `shm_fd` field (kstate.c lines 118-1012 of the
concatenated source file); the claims' line references point into it.

C pointers that may be NULL are modelled as `Option`; the pointees are Lean
structures.  Machine integers are modelled as `Nat`/`Int` (permission masks
are small; the only wrap that matters, the uint32 transaction-id counter, is
reduced `% 2 ^ 32`).  Syscalls (shm_open / ftruncate / mmap / munmap) are
modelled by an explicit oracle `OsEnv` that fixes each call's outcome; the
C functions are translated statement by statement against that oracle.
Allocation (`malloc`) is modelled as succeeding; no claim concerns ENOMEM.
-/

/-- KSTATE_READ permission bit (kstate.h). -/
def KSTATE_READ : Nat := 1

/-- KSTATE_WRITE permission bit (kstate.h). -/
def KSTATE_WRITE : Nat := 2

/-- errno EINVAL (the library returns -EINVAL for invalid arguments). -/
def EINVAL : Int := 22

/-- errno ENOENT ("no such entity"). -/
def ENOENT : Int := 2

/-- mmap failure sentinel, (void *)-1 in C. -/
def MAP_FAILED : Int := -1

/-- Modelled from the spec: `KSTATE_MAX_NAME_LEN` is defined in the kstate
header that is not present under src/ (the kstate.h in src/ is an older
snapshot without it).  The spec fixes the maximum state-name length at 254
characters, and the unit tests in the repository accept a 254-character name
and reject a 255-character one. -/
def KSTATE_MAX_NAME_LEN : Nat := 254

/-- The scan loop of kstate_check_name (kstate.c:222-235).  `ii` is the
current index, `dot_at` the C variable of the same name (an int holding the
index of the last dot seen, initialised to 1 by the source).  Returns false
when the loop rejects the name.  The C comparison `dot_at == ii - 1` promotes
`dot_at` to size_t; for `ii = 0` the C value `ii - 1` is SIZE_MAX, which never
equals `dot_at` - and the branch is unreachable at `ii = 0` anyway because a
leading dot is rejected before the loop, so Nat subtraction is faithful. -/
def check_name_loop : List Char → Nat → Nat → Bool
  | [], _, _ => true
  | c :: rest, ii, dot_at =>
    if c = '.' then
      if dot_at = ii - 1 then false
      else check_name_loop rest (ii + 1) ii
    else if ¬ c.isAlphanum then false
    else check_name_loop rest (ii + 1) dot_at

/-- kstate_check_name (kstate.c:190-237): returns the name length if the name
is acceptable, 0 otherwise.  A NULL name (modelled as `none`) is rejected. -/
def kstate_check_name : Option (List Char) → Nat
  | none => 0
  | some name =>
    let name_len := name.length
    if name_len = 0 then 0
    else if KSTATE_MAX_NAME_LEN < name_len then 0
    else if name.head? = some '.' ∨ name.getLast? = some '.' then 0
    else if check_name_loop name 0 1 then name_len else 0

/-- state_permissions_are_bad (kstate.c:308-321): bad iff zero, or any bit
outside KSTATE_READ|KSTATE_WRITE is set.  For a uint32 mask `p`, the C test
`p & ~(KSTATE_READ | KSTATE_WRITE)` is nonzero exactly when `p >>> 2 ≠ 0`. -/
def state_permissions_are_bad (permissions : Nat) : Bool :=
  permissions = 0 ∨ permissions >>> 2 ≠ 0

/-- transaction_permissions_are_bad (kstate.c:323-336): same test as
state_permissions_are_bad, duplicated in the source. -/
def transaction_permissions_are_bad (permissions : Nat) : Bool :=
  permissions = 0 ∨ permissions >>> 2 ≠ 0

/-- The grammar of valid names as the spec states it (spec section 4.1 and
section 8, restated by claim C4): non-empty, at most 254 characters, only
alphanumerics and dots, no leading or trailing dot, no adjacent dots.  This
definition follows the spec's words; it exists to state claim C4 and is to be
compared against `kstate_check_name`, which is translated from the source. -/
def spec_name_ok (name : List Char) : Bool :=
  name.length ≠ 0 ∧
  name.length ≤ 254 ∧
  name.all (fun c => c.isAlphanum || c = '.') ∧
  name.head? ≠ some '.' ∧
  name.getLast? ≠ some '.' ∧
  (name.zip name.tail).all (fun p => ¬ (p.1 = '.' ∧ p.2 = '.'))

example : kstate_check_name (some ['a', 'b', '.', 'c']) = 0 := by decide
example : spec_name_ok ['a', 'b', '.', 'c'] = true := by decide
example : kstate_check_name (some ['a', '.', 'b']) = 3 := by decide
example : kstate_check_name (some ['F', 'r', 'e', 'd']) = 4 := by decide
example : kstate_check_name (some ['a', '.', '.', 'b']) = 0 := by decide
example : kstate_check_name (some ['.', 'a']) = 0 := by decide
example : kstate_check_name (some ['a', '.']) = 0 := by decide

/-- struct kstate_state (kstate.c:163-170).  `name` holds the stored name
including the leading '/' (NULL modelled as `none`); `shm_fd` is -1 when no
segment handle is held; `map_addr` is 0 (NULL) when no mapping is held. -/
structure KstateState where
  name : Option (List Char)
  permissions : Nat
  shm_fd : Int
  map_addr : Int
  map_length : Nat
deriving Repr, DecidableEq

/-- struct kstate_transaction (kstate.c:173-181). -/
structure KstateTransaction where
  name : Option (List Char)
  id : Nat
  permissions : Nat
  map_addr : Int
  map_length : Nat
deriving Repr, DecidableEq

/-- The OS oracle: fixes the outcome of each modelled syscall.
`segments` is the set of shared-memory object names (with the leading '/')
that already exist; `shm_fd` the fd a successful shm_open returns;
`ftruncate_errno` is 0 when ftruncate succeeds, else the errno it fails with;
`mmap_ret` is the address mmap returns (MAP_FAILED = -1 on failure, with
`mmap_errno`); `munmap_ok`/`munmap_errno` likewise for munmap;
`page_size` is sysconf(_SC_PAGESIZE). -/
structure OsEnv where
  segments : List (List Char)
  shm_fd : Int
  ftruncate_errno : Int
  mmap_ret : Int
  mmap_errno : Int
  munmap_ok : Bool
  munmap_errno : Int
  page_size : Nat
deriving Repr, DecidableEq

/-- A well-behaved OS oracle: file descriptors are nonnegative and errno
values reported by failing calls are positive, as POSIX guarantees. -/
def OsEnv.wf (env : OsEnv) : Prop :=
  0 ≤ env.shm_fd ∧ 0 < env.mmap_errno ∧ 0 < env.munmap_errno ∧
  0 ≤ env.ftruncate_errno

instance (env : OsEnv) : Decidable env.wf := by
  unfold OsEnv.wf; infer_instance

/-- Modelled shm_open: returns (fd, errno-on-failure).  Opening for write
uses O_RDWR|O_CREAT and succeeds (creating the segment if absent); opening
read-only (O_RDONLY) fails with ENOENT when the segment does not exist. -/
def os_shm_open (env : OsEnv) (name : List Char) (write : Bool) : Int × Int :=
  if write then (env.shm_fd, 0)
  else if name ∈ env.segments then (env.shm_fd, 0)
  else (-1, ENOENT)

/-- kstate_state_is_subscribed (kstate.c:341-344): non-NULL and name set. -/
def kstate_state_is_subscribed : Option KstateState → Bool
  | none => false
  | some s => s.name.isSome

/-- kstate_transaction_is_active (kstate.c:349-353): non-NULL and name set. -/
def kstate_transaction_is_active : Option KstateTransaction → Bool
  | none => false
  | some t => t.name.isSome

/-- kstate_get_state_name (kstate.c:358-366): the stored name without its
leading '/', or NULL when not subscribed. -/
def kstate_get_state_name : Option KstateState → Option (List Char)
  | none => none
  | some s =>
    match s.name with
    | some l => some l.tail
    | none => none

/-- kstate_get_transaction_permissions (kstate.c:396-403). -/
def kstate_get_transaction_permissions : Option KstateTransaction → Nat
  | none => 0
  | some t => if t.name.isSome then t.permissions else 0

/-- kstate_get_transaction_id (kstate.c:412-419): the id while active,
0 when not active. -/
def kstate_get_transaction_id : Option KstateTransaction → Nat
  | none => 0
  | some t => if t.name.isSome then t.id else 0

/-- kstate_new_state (kstate.c:549-555): zeroed fields, shm_fd = -1. -/
def kstate_new_state : KstateState :=
  { name := none, permissions := 0, shm_fd := -1, map_addr := 0,
    map_length := 0 }

/-- kstate_new_transaction (kstate.c:784-792): zeroed fields, id drawn from
the static uint32 counter (passed here as `counter`, reduced mod 2^32). -/
def kstate_new_transaction (counter : Nat) : KstateTransaction :=
  { name := none, id := counter % 2 ^ 32, permissions := 0, map_addr := 0,
    map_length := 0 }

/-- kstate_subscribe (kstate.c:599-718), on a non-NULL state handle.
Returns the C return value together with the state the handle points to
afterwards.  The mutation order of the C body is kept: name and permissions
are stored before shm_open, `shm_fd` receives shm_open's result, and each
error path unwinds exactly the fields the C code unwinds (note: no error
path closes the fd or resets `shm_fd`, and kstate.c has no close() call). -/
def kstate_subscribe (env : OsEnv) (state : KstateState)
    (name : Option (List Char)) (permissions : Nat) : Int × KstateState :=
  if kstate_state_is_subscribed (some state) then (-EINVAL, state)
  else
    let name_len := kstate_check_name name
    if name_len = 0 then (-EINVAL, state)
    else if state_permissions_are_bad permissions then (-EINVAL, state)
    else
      let sname : List Char := '/' :: name.getD []
      let permissions :=
        if permissions &&& KSTATE_READ = 0 then permissions ||| KSTATE_READ
        else permissions
      let state1 :=
        { state with name := some sname, permissions := permissions }
      let creating : Bool := permissions &&& KSTATE_WRITE ≠ 0
      let fd_e := os_shm_open env sname creating
      let state2 := { state1 with shm_fd := fd_e.1 }
      if fd_e.1 < 0 then
        (-fd_e.2, { state2 with name := none, permissions := 0 })
      else if creating ∧ env.ftruncate_errno ≠ 0 then
        (-env.ftruncate_errno, { state2 with name := none, permissions := 0 })
      else
        let state3 :=
          { state2 with map_length := env.page_size, map_addr := env.mmap_ret }
        if env.mmap_ret = MAP_FAILED then
          (-env.mmap_errno,
           { state3 with name := none, permissions := 0, map_addr := 0,
                         map_length := 0 })
        else
          (0, state3)

/-- kstate_unsubscribe (kstate.c:737-763) on a non-NULL handle: unmap the
mapping if present (fields are cleared even if munmap reports an error -
"there's not much we can do about it"), free the name, clear permissions.
`shm_fd` is not touched by the source. -/
def kstate_unsubscribe_nn (state : KstateState) : KstateState :=
  let state :=
    if state.map_addr ≠ 0 ∧ state.map_addr ≠ MAP_FAILED then
      { state with map_addr := 0, map_length := 0 }
    else state
  let state := if state.name.isSome then { state with name := none } else state
  { state with permissions := 0 }

/-- kstate_unsubscribe including the NULL guard (kstate.c:739-740). -/
def kstate_unsubscribe : Option KstateState → Option KstateState
  | none => none
  | some s => some (kstate_unsubscribe_nn s)

/-- mmap protection bits. -/
def PROT_READ : Nat := 1

/-- mmap protection bits. -/
def PROT_WRITE : Nat := 2

/-- Result of kstate_start_transaction: the C return value, the transaction
the handle points to afterwards, and the `prot` argument that was passed to
mmap (none when mmap was not reached). -/
structure StartResult where
  rv : Int
  transaction : KstateTransaction
  mmap_prot : Option Nat
deriving Repr, DecidableEq

/-- kstate_start_transaction (kstate.c:836-911) on non-NULL arguments.
Guard order as in the source: active transaction, unsubscribed state, bad
permissions, READ normalization, write-escalation check; then permissions,
name copy and map_length are stored and mmap is called with
prot = PROT_READ | PROT_WRITE ("Some defaults just for now...",
kstate.c:891), unwinding the transaction's fields on mmap failure. -/
def kstate_start_transaction (env : OsEnv) (transaction : KstateTransaction)
    (state : KstateState) (permissions : Nat) : StartResult :=
  if kstate_transaction_is_active (some transaction) then
    ⟨-EINVAL, transaction, none⟩
  else if ¬ kstate_state_is_subscribed (some state) then
    ⟨-EINVAL, transaction, none⟩
  else if transaction_permissions_are_bad permissions then
    ⟨-EINVAL, transaction, none⟩
  else
    let permissions :=
      if permissions &&& KSTATE_READ = 0 then permissions ||| KSTATE_READ
      else permissions
    if permissions &&& KSTATE_WRITE ≠ 0 ∧
        state.permissions &&& KSTATE_WRITE = 0 then
      ⟨-EINVAL, transaction, none⟩
    else
      let t1 := { transaction with permissions := permissions,
                                   name := state.name,
                                   map_length := state.map_length }
      let prot := PROT_READ ||| PROT_WRITE
      let t2 := { t1 with map_addr := env.mmap_ret }
      if env.mmap_ret = MAP_FAILED then
        ⟨-env.mmap_errno,
         { t2 with name := none, permissions := 0, map_addr := 0,
                   map_length := 0 },
         some prot⟩
      else
        ⟨0, t2, some prot⟩

/-- finish_transaction (kstate.c:913-936): unmap if a mapping is present
(an munmap failure returns -errno early, leaving every field in place),
then free the name and clear permissions. -/
def finish_transaction (env : OsEnv) (transaction : KstateTransaction) :
    Int × KstateTransaction :=
  if transaction.map_addr ≠ 0 ∧ transaction.map_addr ≠ MAP_FAILED then
    if ¬ env.munmap_ok then
      (-env.munmap_errno, transaction)
    else
      let t := { transaction with map_addr := 0, map_length := 0 }
      (0, { t with name := none, permissions := 0 })
  else
    (0, { transaction with name := none, permissions := 0 })

/-- kstate_abort_transaction (kstate.c:954-970): NULL or inactive fails
with -EINVAL, otherwise finish_transaction. -/
def kstate_abort_transaction (env : OsEnv)
    (transaction : Option KstateTransaction) :
    Int × Option KstateTransaction :=
  match transaction with
  | none => (-EINVAL, none)
  | some t =>
    if ¬ kstate_transaction_is_active (some t) then (-EINVAL, some t)
    else
      let r := finish_transaction env t
      (r.1, some r.2)

/-- kstate_commit_transaction (kstate.c:988-1004): the body is that of
kstate_abort_transaction; the two differ only in the strings they print. -/
def kstate_commit_transaction (env : OsEnv)
    (transaction : Option KstateTransaction) :
    Int × Option KstateTransaction :=
  match transaction with
  | none => (-EINVAL, none)
  | some t =>
    if ¬ kstate_transaction_is_active (some t) then (-EINVAL, some t)
    else
      let r := finish_transaction env t
      (r.1, some r.2)

/-- A state handle together with a transaction handle, for frame claims:
kstate_unsubscribe receives only the state pointer and the two structures
are disjoint heap objects, so unsubscribing acts only on the state. -/
structure KstateWorld where
  state : KstateState
  transaction : KstateTransaction
deriving Repr, DecidableEq

/-- kstate_unsubscribe lifted to a world: only the state component moves. -/
def world_unsubscribe (w : KstateWorld) : KstateWorld :=
  { w with state := kstate_unsubscribe_nn w.state }

/-- An OS oracle on which every syscall succeeds. -/
def envOk : OsEnv :=
  { segments := [], shm_fd := 5, ftruncate_errno := 0, mmap_ret := 4096,
    mmap_errno := 12, munmap_ok := true, munmap_errno := 22,
    page_size := 4096 }

/-- An OS oracle on which ftruncate fails with EACCES (13). -/
def envFtFail : OsEnv :=
  { envOk with ftruncate_errno := 13 }

/-- The name "Fred" used by the repository's own tests. -/
def fredName : List Char := ['F', 'r', 'e', 'd']

/-- A state subscribed to "Fred" for read|write under `envOk`. -/
def fredState : KstateState :=
  (kstate_subscribe envOk kstate_new_state (some fredName)
    (KSTATE_READ ||| KSTATE_WRITE)).2

example :
    kstate_subscribe envOk kstate_new_state (some fredName)
      (KSTATE_READ ||| KSTATE_WRITE) =
    (0, { name := some ['/', 'F', 'r', 'e', 'd'], permissions := 3,
          shm_fd := 5, map_addr := 4096, map_length := 4096 }) := by decide

/-- Helper shared by several claims: kstate_commit_transaction computes the
same function as kstate_abort_transaction. -/
theorem commit_abort_agree (env : OsEnv)
    (transaction : Option KstateTransaction) :
    kstate_commit_transaction env transaction =
      kstate_abort_transaction env transaction := by
  cases transaction <;> rfl

/-- C4: the claim says kstate_check_name accepts exactly the names matching
the documented grammar.  The code rejects the grammar-valid name "ab.c":
`dot_at` is initialised to 1, so the dot at index 2 is mistaken for an
adjacent dot (kstate.c:193,224).  This contradicts the validator's own
documentation (kstate.c:584-586). -/
theorem c4_check_name_rejects_grammar_valid_name :
    kstate_check_name (some ['a', 'b', '.', 'c']) = 0 ∧
      spec_name_ok ['a', 'b', '.', 'c'] = true := by
  decide

/-- C6: kstate_subscribe on a handle that is already subscribed returns
-EINVAL and leaves the handle's fields untouched (kstate.c:608-612). -/
theorem c6_subscribe_on_subscribed_handle_is_invalid (env : OsEnv)
    (s : KstateState) (name : Option (List Char)) (permissions : Nat)
    (h : s.name.isSome) :
    kstate_subscribe env s name permissions = (-EINVAL, s) := by
  unfold kstate_subscribe
  simp [kstate_state_is_subscribed, h]

/-- Witness for C6 at a concrete subscribed state. -/
theorem c6_witness :
    fredState.name.isSome = true ∧
      kstate_subscribe envOk fredState (some ['G']) KSTATE_READ =
        (-EINVAL, fredState) :=
  ⟨by decide,
   c6_subscribe_on_subscribed_handle_is_invalid envOk fredState
     (some ['G']) KSTATE_READ (by decide)⟩

/-- C7: kstate_commit_transaction and kstate_abort_transaction return the
same result code and leave the transaction in the same final state on every
argument, NULL and inactive transactions included (kstate.c:954-970 and
988-1004 differ only in the strings they print). -/
theorem c7_commit_equals_abort (env : OsEnv)
    (transaction : Option KstateTransaction) :
    kstate_commit_transaction env transaction =
      kstate_abort_transaction env transaction := by
  cases transaction <;> rfl

/-- C8: a READ-only subscription to a name whose segment does not exist
fails with -ENOENT and leaves the handle unsubscribed (kstate.c:653-667:
O_RDONLY shm_open fails, the name is freed and permissions cleared; the
failing shm_open returned -1, which is also the fd sentinel). -/
theorem c8_read_only_subscribe_to_missing_segment (env : OsEnv)
    (s : KstateState) (n : List Char)
    (hs : s.name = none)
    (hname : kstate_check_name (some n) ≠ 0)
    (hmiss : ('/' :: n) ∉ env.segments) :
    kstate_subscribe env s (some n) KSTATE_READ =
      (-ENOENT, { s with name := none, permissions := 0, shm_fd := -1 }) ∧
    kstate_state_is_subscribed
      (some (kstate_subscribe env s (some n) KSTATE_READ).2) = false := by
  unfold kstate_subscribe os_shm_open
  simp [kstate_state_is_subscribed, hs, hname, hmiss,
        state_permissions_are_bad, KSTATE_READ, KSTATE_WRITE, EINVAL, ENOENT]

/-- Helper: the WRITE bit is untouched by the READ normalization step. -/
theorem normalize_write_bit (p : Nat) :
    (if p &&& KSTATE_READ = 0 then p ||| KSTATE_READ else p) &&& KSTATE_WRITE =
      p &&& KSTATE_WRITE := by
  unfold KSTATE_READ KSTATE_WRITE
  split
  · apply Nat.eq_of_testBit_eq
    intro i
    rw [Nat.testBit_land, Nat.testBit_lor, Nat.testBit_land]
    cases i with
    | zero => simp
    | succ j => simp [Nat.testBit_succ]
  · rfl

/-- C3 counterexample: the claim says kstate_unsubscribe releases the
segment handle and leaves shm_fd at its absent sentinel (-1).  On a state
subscribed under an oracle whose shm_open returned fd 5, unsubscribing
leaves shm_fd = 5: kstate.c:737-763 contains no close() and never assigns
shm_fd. -/
theorem c3_counterexample_fd_survives_unsubscribe :
    kstate_state_is_subscribed (some fredState) = true ∧
      (kstate_unsubscribe_nn fredState).shm_fd = 5 ∧
      (kstate_unsubscribe_nn fredState).shm_fd ≠ -1 := by
  decide

/-- C3 as amended: kstate_unsubscribe unmaps the mapping if one is present,
frees the name and clears permissions, leaving the name NULL, permissions 0
and the mapping fields zeroed, but it does not close or reset the segment
fd field, which keeps its previous value; on a NULL handle or an
already-unsubscribed state it is a no-op. -/
theorem c3_unsubscribe_clears_all_but_fd (s : KstateState) :
    (kstate_unsubscribe_nn s).name = none ∧
    (kstate_unsubscribe_nn s).permissions = 0 ∧
    (kstate_unsubscribe_nn s).shm_fd = s.shm_fd ∧
    (s.map_addr ≠ 0 → s.map_addr ≠ MAP_FAILED →
      (kstate_unsubscribe_nn s).map_addr = 0 ∧
      (kstate_unsubscribe_nn s).map_length = 0) ∧
    (s.map_addr = 0 →
      (kstate_unsubscribe_nn s).map_addr = 0 ∧
      (kstate_unsubscribe_nn s).map_length = s.map_length) ∧
    kstate_unsubscribe none = none ∧
    (s.name = none → s.permissions = 0 → s.map_addr = 0 →
      kstate_unsubscribe_nn s = s) := by
  obtain ⟨nm, p, fd, ma, ml⟩ := s
  by_cases hma : ma ≠ 0 ∧ ma ≠ MAP_FAILED <;> cases nm <;>
    simp [kstate_unsubscribe_nn, kstate_unsubscribe, hma] <;>
      tauto

/-- Witness for C3's amended theorem at the concrete subscribed state. -/
theorem c3_witness :
    ((kstate_unsubscribe_nn fredState).name = none ∧
      (kstate_unsubscribe_nn fredState).permissions = 0 ∧
      (kstate_unsubscribe_nn fredState).shm_fd = fredState.shm_fd ∧
      (fredState.map_addr ≠ 0 → fredState.map_addr ≠ MAP_FAILED →
        (kstate_unsubscribe_nn fredState).map_addr = 0 ∧
        (kstate_unsubscribe_nn fredState).map_length = 0) ∧
      (fredState.map_addr = 0 →
        (kstate_unsubscribe_nn fredState).map_addr = 0 ∧
        (kstate_unsubscribe_nn fredState).map_length = fredState.map_length) ∧
      kstate_unsubscribe none = none ∧
      (fredState.name = none → fredState.permissions = 0 →
        fredState.map_addr = 0 → kstate_unsubscribe_nn fredState = fredState)) :=
  c3_unsubscribe_clears_all_but_fd fredState

/-- C2 counterexample: subscribing a fresh handle for read|write under an
oracle whose ftruncate fails with EACCES (13) returns -13, but the handle is
not returned to its prior all-sentinel state: shm_fd holds the still-open
fd 5 instead of -1 (kstate.c:681-692 frees the name and clears permissions
but neither closes the fd nor resets shm_fd). -/
theorem c2_counterexample_fd_left_open :
    (kstate_subscribe envFtFail kstate_new_state (some fredName)
      (KSTATE_READ ||| KSTATE_WRITE)).1 = -13 ∧
    (kstate_subscribe envFtFail kstate_new_state (some fredName)
      (KSTATE_READ ||| KSTATE_WRITE)).2.shm_fd = 5 ∧
    (kstate_subscribe envFtFail kstate_new_state (some fredName)
      (KSTATE_READ ||| KSTATE_WRITE)).2 ≠ kstate_new_state := by
  decide

/-- Path evaluation: write subscription whose ftruncate fails
(kstate.c:674-693). -/
theorem subscribe_write_ftruncate_fail (env : OsEnv) (s : KstateState)
    (n : List Char) (p : Nat)
    (hs : s.name = none)
    (hname : kstate_check_name (some n) ≠ 0)
    (hperm : state_permissions_are_bad p = false)
    (hw : p &&& KSTATE_WRITE ≠ 0)
    (hfe : env.ftruncate_errno ≠ 0)
    (hfd : 0 ≤ env.shm_fd) :
    kstate_subscribe env s (some n) p =
      (-env.ftruncate_errno,
        { s with name := none, permissions := 0, shm_fd := env.shm_fd }) := by
  have hch : ¬ env.shm_fd < 0 := by omega
  unfold kstate_subscribe os_shm_open
  simp [kstate_state_is_subscribed, hs, hname, hperm, normalize_write_bit,
        hw, hfe, hch]

/-- Path evaluation: subscription whose mmap fails after the open (and, for
a writable subscription, the resize) succeeded (kstate.c:702-715). -/
theorem subscribe_mmap_fail (env : OsEnv) (s : KstateState)
    (n : List Char) (p : Nat)
    (hs : s.name = none)
    (hname : kstate_check_name (some n) ≠ 0)
    (hperm : state_permissions_are_bad p = false)
    (hstage : (p &&& KSTATE_WRITE ≠ 0 ∧ env.ftruncate_errno = 0) ∨
      (p &&& KSTATE_WRITE = 0 ∧ ('/' :: n) ∈ env.segments))
    (hmm : env.mmap_ret = MAP_FAILED)
    (hfd : 0 ≤ env.shm_fd) :
    kstate_subscribe env s (some n) p =
      (-env.mmap_errno,
        { s with name := none, permissions := 0, shm_fd := env.shm_fd,
                 map_addr := 0, map_length := 0 }) := by
  have hch : ¬ env.shm_fd < 0 := by omega
  unfold kstate_subscribe os_shm_open
  rcases hstage with ⟨hw, hfe⟩ | ⟨hw, hmem⟩
  · simp [kstate_state_is_subscribed, hs, hname, hperm, normalize_write_bit,
          hw, hfe, hch, hmm]
  · simp [kstate_state_is_subscribed, hs, hname, hperm, normalize_write_bit,
          hw, hch, hmm, hmem]

/-- C2 as amended: when kstate_subscribe fails after the segment has been
opened (set-size failure or mapping failure), it returns the negative errno
and resets the name, permissions and mapping fields of a previously
unsubscribed handle to their empty values, but the segment handle is not
closed: shm_fd keeps the fd that shm_open returned. -/
theorem c2_failed_subscribe_unwinds_except_fd (env : OsEnv) (s : KstateState)
    (n : List Char) (p : Nat)
    (hwf : env.wf)
    (hs : s.name = none) (hma : s.map_addr = 0) (hml : s.map_length = 0)
    (hname : kstate_check_name (some n) ≠ 0)
    (hperm : state_permissions_are_bad p = false)
    (hopen : p &&& KSTATE_WRITE ≠ 0 ∨ ('/' :: n) ∈ env.segments)
    (hfail : (p &&& KSTATE_WRITE ≠ 0 ∧ env.ftruncate_errno ≠ 0) ∨
      env.mmap_ret = MAP_FAILED) :
    (kstate_subscribe env s (some n) p).1 < 0 ∧
    (kstate_subscribe env s (some n) p).2 =
      { s with name := none, permissions := 0, shm_fd := env.shm_fd } := by
  obtain ⟨hfd, hme, hmu, hft⟩ := hwf
  by_cases hw : p &&& KSTATE_WRITE = 0
  · have hmem : ('/' :: n) ∈ env.segments := by
      rcases hopen with h | h
      · exact absurd hw h
      · exact h
    have hmm : env.mmap_ret = MAP_FAILED := by
      rcases hfail with ⟨h, _⟩ | h
      · exact absurd hw h
      · exact h
    rw [subscribe_mmap_fail env s n p hs hname hperm (Or.inr ⟨hw, hmem⟩)
      hmm hfd]
    refine ⟨by omega, ?_⟩
    obtain ⟨nm, pp, fd, ma, ml⟩ := s
    simp_all
  · by_cases hfe : env.ftruncate_errno = 0
    · have hmm : env.mmap_ret = MAP_FAILED := by
        rcases hfail with ⟨_, h⟩ | h
        · exact absurd hfe h
        · exact h
      rw [subscribe_mmap_fail env s n p hs hname hperm (Or.inl ⟨hw, hfe⟩)
        hmm hfd]
      refine ⟨by omega, ?_⟩
      obtain ⟨nm, pp, fd, ma, ml⟩ := s
      simp_all
    · rw [subscribe_write_ftruncate_fail env s n p hs hname hperm hw hfe hfd]
      exact ⟨by omega, rfl⟩

/-- Witness for C2's amended theorem: fresh handle, name "Fred", read|write,
ftruncate failing with EACCES. -/
theorem c2_witness :
    envFtFail.wf ∧
    ((kstate_subscribe envFtFail kstate_new_state (some fredName)
        (KSTATE_READ ||| KSTATE_WRITE)).1 < 0 ∧
      (kstate_subscribe envFtFail kstate_new_state (some fredName)
        (KSTATE_READ ||| KSTATE_WRITE)).2 =
        { kstate_new_state with name := none, permissions := 0,
                                shm_fd := envFtFail.shm_fd }) :=
  ⟨by decide,
   c2_failed_subscribe_unwinds_except_fd envFtFail kstate_new_state fredName
     (KSTATE_READ ||| KSTATE_WRITE) (by decide) rfl rfl rfl (by decide)
     (by decide) (Or.inl (by decide)) (Or.inl ⟨by decide, by decide⟩)⟩

/-- C9: the stored segment identifier is the validated name with a single
leading '/', and kstate_get_state_name strips it back off: the name queried
from a successfully subscribed state equals the name passed to subscribe
(kstate.c:627-631 and 358-366). -/
theorem c9_name_round_trip (env : OsEnv) (s : KstateState) (n : List Char)
    (p : Nat)
    (hwf : env.wf)
    (hname : kstate_check_name (some n) ≠ 0)
    (h0 : (kstate_subscribe env s (some n) p).1 = 0) :
    (kstate_subscribe env s (some n) p).2.name = some ('/' :: n) ∧
    kstate_get_state_name (some (kstate_subscribe env s (some n) p).2) =
      some n := by
  obtain ⟨hfd, hme, hmu, hft⟩ := hwf
  have hch : ¬ env.shm_fd < 0 := by omega
  by_cases h1 : s.name.isSome <;>
  by_cases h3 : state_permissions_are_bad p <;>
  by_cases h4 : p &&& KSTATE_WRITE = 0 <;>
  by_cases h5 : ('/' :: n) ∈ env.segments <;>
  by_cases h6 : env.ftruncate_errno = 0 <;>
  by_cases h7 : env.mmap_ret = MAP_FAILED <;>
  simp_all [kstate_subscribe, os_shm_open, kstate_state_is_subscribed,
    kstate_get_state_name, normalize_write_bit, EINVAL, ENOENT] <;>
  first
    | (exfalso; omega)
    | simp [show ¬ env.shm_fd < 0 by omega]

/-- Witness for C9 at a concrete successful subscription. -/
theorem c9_witness :
    (envOk.wf ∧ kstate_check_name (some fredName) ≠ 0 ∧
      (kstate_subscribe envOk kstate_new_state (some fredName)
        (KSTATE_READ ||| KSTATE_WRITE)).1 = 0) ∧
    (kstate_subscribe envOk kstate_new_state (some fredName)
      (KSTATE_READ ||| KSTATE_WRITE)).2.name = some ('/' :: fredName) ∧
    kstate_get_state_name
      (some (kstate_subscribe envOk kstate_new_state (some fredName)
        (KSTATE_READ ||| KSTATE_WRITE)).2) = some fredName :=
  ⟨by decide,
   c9_name_round_trip envOk kstate_new_state fredName
     (KSTATE_READ ||| KSTATE_WRITE) (by decide) (by decide) (by decide)⟩

/-- Witness for C8: fresh state, name "Fred", empty segment list. -/
theorem c8_witness :
    (kstate_new_state.name = none ∧
      kstate_check_name (some fredName) ≠ 0 ∧
      ('/' :: fredName) ∉ envOk.segments) ∧
    kstate_subscribe envOk kstate_new_state (some fredName) KSTATE_READ =
      (-ENOENT,
        { kstate_new_state with name := none, permissions := 0, shm_fd := -1 }) ∧
    kstate_state_is_subscribed
      (some (kstate_subscribe envOk kstate_new_state (some fredName)
        KSTATE_READ).2) = false :=
  ⟨by decide,
   c8_read_only_subscribe_to_missing_segment envOk kstate_new_state fredName
     (by decide) (by decide) (by decide)⟩

/-- C5 counterexample: a READ-only transaction successfully started on a
writable state has its private mapping requested with
prot = PROT_READ | PROT_WRITE: the write bit is set although the granted
permissions do not include WRITE (kstate.c:891 hard-codes the prot,
"Some defaults just for now..."). -/
theorem c5_counterexample_read_only_mapping_writable :
    (kstate_start_transaction envOk (kstate_new_transaction 1) fredState
      KSTATE_READ).rv = 0 ∧
    (kstate_start_transaction envOk (kstate_new_transaction 1) fredState
      KSTATE_READ).mmap_prot = some (PROT_READ ||| PROT_WRITE) ∧
    (PROT_READ ||| PROT_WRITE) &&& PROT_WRITE ≠ 0 := by
  decide

/-- C5 as amended: whenever kstate_start_transaction reaches its mmap call
(in particular whenever it succeeds), the transaction's private mapping is
requested with both PROT_READ and PROT_WRITE, regardless of the granted
permissions; when mmap is not reached no mapping is requested. -/
theorem c5_transaction_mapping_always_read_write (env : OsEnv)
    (t : KstateTransaction) (s : KstateState) (p : Nat) :
    ((kstate_start_transaction env t s p).mmap_prot = none ∨
      (kstate_start_transaction env t s p).mmap_prot =
        some (PROT_READ ||| PROT_WRITE)) ∧
    ((kstate_start_transaction env t s p).rv = 0 →
      (kstate_start_transaction env t s p).mmap_prot =
        some (PROT_READ ||| PROT_WRITE)) := by
  simp only [kstate_start_transaction]
  split_ifs <;> simp [EINVAL]

/-- Witness for C5's amended theorem at the concrete READ-only start. -/
theorem c5_witness :
    ((kstate_start_transaction envOk (kstate_new_transaction 1) fredState
        KSTATE_READ).mmap_prot = none ∨
      (kstate_start_transaction envOk (kstate_new_transaction 1) fredState
        KSTATE_READ).mmap_prot = some (PROT_READ ||| PROT_WRITE)) ∧
    ((kstate_start_transaction envOk (kstate_new_transaction 1) fredState
        KSTATE_READ).rv = 0 →
      (kstate_start_transaction envOk (kstate_new_transaction 1) fredState
        KSTATE_READ).mmap_prot = some (PROT_READ ||| PROT_WRITE)) :=
  c5_transaction_mapping_always_read_write envOk (kstate_new_transaction 1)
    fredState KSTATE_READ

/-- Helper: a successful kstate_start_transaction implies every guard passed
(inactive transaction, subscribed state, mmap succeeded) and determines the
transaction's fields exactly: the state's name is copied, the permissions
are the normalized request, the mapping is the state's length at the address
mmap returned, and the id is untouched. -/
theorem start_success_shape (env : OsEnv) (t : KstateTransaction)
    (s : KstateState) (p : Nat)
    (hme : 0 < env.mmap_errno)
    (h0 : (kstate_start_transaction env t s p).rv = 0) :
    t.name = none ∧ s.name.isSome = true ∧ env.mmap_ret ≠ MAP_FAILED ∧
    (kstate_start_transaction env t s p).transaction =
      { t with name := s.name,
               permissions :=
                 if p &&& KSTATE_READ = 0 then p ||| KSTATE_READ else p,
               map_length := s.map_length,
               map_addr := env.mmap_ret } := by
  simp only [kstate_start_transaction] at h0 ⊢
  split_ifs at h0 ⊢ <;>
    simp_all [kstate_transaction_is_active, kstate_state_is_subscribed,
      EINVAL, Option.not_isSome_iff_eq_none]

/-- Helper: kstate_start_transaction never modifies the transaction id. -/
theorem start_preserves_id (env : OsEnv) (t : KstateTransaction)
    (s : KstateState) (p : Nat) :
    (kstate_start_transaction env t s p).transaction.id = t.id := by
  simp only [kstate_start_transaction]
  split_ifs <;> rfl

/-- Helper: kstate_abort_transaction never modifies the transaction id. -/
theorem abort_preserves_id (envf : OsEnv) (t : KstateTransaction) :
    ∀ t1, (kstate_abort_transaction envf (some t)).2 = some t1 →
      t1.id = t.id := by
  intro t1 h
  simp only [kstate_abort_transaction, finish_transaction] at h
  split_ifs at h <;> simp_all <;> (subst h) <;> rfl

/-- Helper: aborting an active transaction whose map_addr is not MAP_FAILED
succeeds (given munmap succeeds) and clears name, permissions and mapping
address; the mapped length is cleared exactly when a mapping was present. -/
theorem abort_active_shape (envf : OsEnv) (tr : KstateTransaction)
    (ha : tr.name.isSome = true) (hm : envf.munmap_ok = true)
    (hmf : tr.map_addr ≠ MAP_FAILED) :
    kstate_abort_transaction envf (some tr) =
      (0, some { tr with name := none, permissions := 0, map_addr := 0,
                         map_length :=
                           if tr.map_addr = 0 then tr.map_length else 0 }) := by
  by_cases hz : tr.map_addr = 0 <;>
    simp_all [kstate_abort_transaction, finish_transaction,
      kstate_transaction_is_active]

/-- Helper: aborting an inactive (or NULL) transaction fails with -EINVAL
and changes nothing. -/
theorem abort_inactive_eval (envf : OsEnv) (ot : Option KstateTransaction)
    (hi : kstate_transaction_is_active ot = false) :
    kstate_abort_transaction envf ot = (-EINVAL, ot) := by
  cases ot <;> simp_all [kstate_abort_transaction, kstate_transaction_is_active]

/-- C10: the id assigned by kstate_new_transaction is not modified by
kstate_start_transaction, kstate_abort_transaction or
kstate_commit_transaction; a transaction finished and successfully started
again reports via kstate_get_transaction_id the same non-zero id while
active as it did during its previous activation. -/
theorem c10_id_stable_across_restart (env env2 envf : OsEnv)
    (t : KstateTransaction) (s s2 : KstateState) (p p2 : Nat)
    (hid : t.id ≠ 0) (ha : t.name.isSome = true)
    (hme2 : 0 < env2.mmap_errno) :
    kstate_get_transaction_id (some t) = t.id ∧
    (kstate_start_transaction env t s p).transaction.id = t.id ∧
    (∀ t1, (kstate_abort_transaction envf (some t)).2 = some t1 →
      t1.id = t.id) ∧
    (∀ t1, (kstate_commit_transaction envf (some t)).2 = some t1 →
      t1.id = t.id) ∧
    (∀ t1, (kstate_abort_transaction envf (some t)).2 = some t1 →
      (kstate_start_transaction env2 t1 s2 p2).transaction.id = t.id ∧
      ((kstate_start_transaction env2 t1 s2 p2).rv = 0 →
        kstate_get_transaction_id
          (some (kstate_start_transaction env2 t1 s2 p2).transaction) =
            t.id ∧
        kstate_get_transaction_id
          (some (kstate_start_transaction env2 t1 s2 p2).transaction) ≠ 0)) := by
  refine ⟨by simp [kstate_get_transaction_id, ha],
          start_preserves_id env t s p,
          abort_preserves_id envf t,
          ?_, ?_⟩
  · intro t1 h
    rw [commit_abort_agree] at h
    exact abort_preserves_id envf t t1 h
  · intro t1 h
    have hid1 : t1.id = t.id := abort_preserves_id envf t t1 h
    refine ⟨by rw [start_preserves_id, hid1], ?_⟩
    intro h0
    obtain ⟨-, hsi, -, htr⟩ := start_success_shape env2 t1 s2 p2 hme2 h0
    have hact : (kstate_start_transaction env2 t1 s2 p2).transaction.name.isSome
        = true := by
      rw [htr]
      exact hsi
    constructor
    · simp [kstate_get_transaction_id, hact, start_preserves_id, hid1]
    · simp [kstate_get_transaction_id, hact, start_preserves_id, hid1, hid]

/-- A transaction started on the "Fred" state (id 7, READ), for witnesses. -/
def fredTransaction : KstateTransaction :=
  (kstate_start_transaction envOk (kstate_new_transaction 7) fredState
    KSTATE_READ).transaction

/-- Witness for C10 at the concrete active transaction on "Fred". -/
theorem c10_witness :
    (fredTransaction.id ≠ 0 ∧ fredTransaction.name.isSome = true ∧
      0 < envOk.mmap_errno) ∧
    (kstate_get_transaction_id (some fredTransaction) = fredTransaction.id ∧
    (kstate_start_transaction envOk fredTransaction fredState
      KSTATE_READ).transaction.id = fredTransaction.id ∧
    (∀ t1, (kstate_abort_transaction envOk (some fredTransaction)).2 = some t1 →
      t1.id = fredTransaction.id) ∧
    (∀ t1, (kstate_commit_transaction envOk (some fredTransaction)).2 = some t1 →
      t1.id = fredTransaction.id) ∧
    (∀ t1, (kstate_abort_transaction envOk (some fredTransaction)).2 = some t1 →
      (kstate_start_transaction envOk t1 fredState
        KSTATE_READ).transaction.id = fredTransaction.id ∧
      ((kstate_start_transaction envOk t1 fredState KSTATE_READ).rv = 0 →
        kstate_get_transaction_id
          (some (kstate_start_transaction envOk t1 fredState
            KSTATE_READ).transaction) = fredTransaction.id ∧
        kstate_get_transaction_id
          (some (kstate_start_transaction envOk t1 fredState
            KSTATE_READ).transaction) ≠ 0))) :=
  ⟨by decide,
   c10_id_stable_across_restart envOk envOk envOk fredTransaction fredState
     fredState KSTATE_READ KSTATE_READ (by decide) (by decide) (by decide)⟩

/-- C1: after a successful kstate_start_transaction from a subscribed state,
unsubscribing that state leaves the transaction component of the world
untouched (kstate_unsubscribe receives only the state pointer), so the
transaction is still active with its name copy, id, permissions and mapping
unchanged; the first kstate_abort_transaction or kstate_commit_transaction
on it then returns 0 and deactivates it, and every further abort or commit
on the finalized transaction returns -EINVAL. -/
theorem c1_transaction_survives_unsubscribe (env envf envf2 : OsEnv)
    (t : KstateTransaction) (s : KstateState) (p : Nat)
    (hme : 0 < env.mmap_errno)
    (hm : envf.munmap_ok = true)
    (h0 : (kstate_start_transaction env t s p).rv = 0) :
    (world_unsubscribe
        ⟨s, (kstate_start_transaction env t s p).transaction⟩).transaction =
      (kstate_start_transaction env t s p).transaction ∧
    kstate_transaction_is_active
      (some (world_unsubscribe
        ⟨s, (kstate_start_transaction env t s p).transaction⟩).transaction) =
      true ∧
    (kstate_start_transaction env t s p).transaction.name = s.name ∧
    (kstate_start_transaction env t s p).transaction.id = t.id ∧
    (kstate_abort_transaction envf
      (some (kstate_start_transaction env t s p).transaction)).1 = 0 ∧
    (kstate_commit_transaction envf
      (some (kstate_start_transaction env t s p).transaction)).1 = 0 ∧
    kstate_transaction_is_active
      (kstate_abort_transaction envf
        (some (kstate_start_transaction env t s p).transaction)).2 = false ∧
    kstate_transaction_is_active
      (kstate_commit_transaction envf
        (some (kstate_start_transaction env t s p).transaction)).2 = false ∧
    (kstate_abort_transaction envf2
      (kstate_abort_transaction envf
        (some (kstate_start_transaction env t s p).transaction)).2).1 =
      -EINVAL ∧
    (kstate_commit_transaction envf2
      (kstate_abort_transaction envf
        (some (kstate_start_transaction env t s p).transaction)).2).1 =
      -EINVAL ∧
    (kstate_abort_transaction envf2
      (kstate_commit_transaction envf
        (some (kstate_start_transaction env t s p).transaction)).2).1 =
      -EINVAL ∧
    (kstate_commit_transaction envf2
      (kstate_commit_transaction envf
        (some (kstate_start_transaction env t s p).transaction)).2).1 =
      -EINVAL := by
  obtain ⟨hti, hsi, hmr, htr⟩ := start_success_shape env t s p hme h0
  set r := (kstate_start_transaction env t s p).transaction with hr
  have hname : r.name = s.name := by rw [htr]
  have hid : r.id = t.id := by rw [htr]
  have ha : r.name.isSome = true := by rw [hname]; exact hsi
  have hmf : r.map_addr ≠ MAP_FAILED := by rw [htr]; exact hmr
  have habort := abort_active_shape envf r ha hm hmf
  have hinact_ab : kstate_transaction_is_active
      (kstate_abort_transaction envf (some r)).2 = false := by
    rw [habort]; rfl
  have hinact_cm : kstate_transaction_is_active
      (kstate_commit_transaction envf (some r)).2 = false := by
    rw [commit_abort_agree, habort]; rfl
  refine ⟨rfl, ?_, hname, hid, ?_, ?_, hinact_ab, hinact_cm, ?_, ?_, ?_, ?_⟩
  · simp [world_unsubscribe, kstate_transaction_is_active, ha]
  · rw [habort]
  · rw [commit_abort_agree, habort]
  · rw [abort_inactive_eval envf2 _ hinact_ab]
  · rw [commit_abort_agree, abort_inactive_eval envf2 _ hinact_ab]
  · rw [abort_inactive_eval envf2 _ hinact_cm]
  · rw [commit_abort_agree, abort_inactive_eval envf2 _ hinact_cm]

/-- Witness for C1: transaction id 1 started for WRITE on "Fred". -/
theorem c1_witness :
    (0 < envOk.mmap_errno ∧ envOk.munmap_ok = true ∧
      (kstate_start_transaction envOk (kstate_new_transaction 1) fredState
        KSTATE_WRITE).rv = 0) ∧
    ((world_unsubscribe
        ⟨fredState, (kstate_start_transaction envOk (kstate_new_transaction 1)
          fredState KSTATE_WRITE).transaction⟩).transaction =
      (kstate_start_transaction envOk (kstate_new_transaction 1) fredState
        KSTATE_WRITE).transaction ∧
    kstate_transaction_is_active
      (some (world_unsubscribe
        ⟨fredState, (kstate_start_transaction envOk (kstate_new_transaction 1)
          fredState KSTATE_WRITE).transaction⟩).transaction) = true ∧
    (kstate_start_transaction envOk (kstate_new_transaction 1) fredState
      KSTATE_WRITE).transaction.name = fredState.name ∧
    (kstate_start_transaction envOk (kstate_new_transaction 1) fredState
      KSTATE_WRITE).transaction.id = (kstate_new_transaction 1).id ∧
    (kstate_abort_transaction envOk
      (some (kstate_start_transaction envOk (kstate_new_transaction 1)
        fredState KSTATE_WRITE).transaction)).1 = 0 ∧
    (kstate_commit_transaction envOk
      (some (kstate_start_transaction envOk (kstate_new_transaction 1)
        fredState KSTATE_WRITE).transaction)).1 = 0 ∧
    kstate_transaction_is_active
      (kstate_abort_transaction envOk
        (some (kstate_start_transaction envOk (kstate_new_transaction 1)
          fredState KSTATE_WRITE).transaction)).2 = false ∧
    kstate_transaction_is_active
      (kstate_commit_transaction envOk
        (some (kstate_start_transaction envOk (kstate_new_transaction 1)
          fredState KSTATE_WRITE).transaction)).2 = false ∧
    (kstate_abort_transaction envOk
      (kstate_abort_transaction envOk
        (some (kstate_start_transaction envOk (kstate_new_transaction 1)
          fredState KSTATE_WRITE).transaction)).2).1 = -EINVAL ∧
    (kstate_commit_transaction envOk
      (kstate_abort_transaction envOk
        (some (kstate_start_transaction envOk (kstate_new_transaction 1)
          fredState KSTATE_WRITE).transaction)).2).1 = -EINVAL ∧
    (kstate_abort_transaction envOk
      (kstate_commit_transaction envOk
        (some (kstate_start_transaction envOk (kstate_new_transaction 1)
          fredState KSTATE_WRITE).transaction)).2).1 = -EINVAL ∧
    (kstate_commit_transaction envOk
      (kstate_commit_transaction envOk
        (some (kstate_start_transaction envOk (kstate_new_transaction 1)
          fredState KSTATE_WRITE).transaction)).2).1 = -EINVAL) :=
  ⟨by decide,
   c1_transaction_survives_unsubscribe envOk envOk envOk
     (kstate_new_transaction 1) fredState KSTATE_WRITE (by decide) (by decide)
     (by decide)⟩
